import Mathlib

/-!
Shallow embedding of the shelter edit form of cursopecege_spa:
the update service (updateShelter), the zod validation schema
(shelterSchema), the submit handler of the Shelter form component, the
form-population effect, the submit button variant, and the Select
component's option rendering. Effectful code is embedded as pure
functions returning an explicit trace of effects.
-/

/-- Embeds the JavaScript expression value.replace(/\D/g, ""):
every character that is not an ASCII digit is removed. -/
def stripNonDigits (value : String) : String :=
  String.mk (value.data.filter Char.isDigit)

/-- Number of digit characters of a string after stripping non-digits,
as computed inside the phone and whatsApp refinements. -/
def digitCount (value : String) : Nat :=
  (stripNonDigits value).length

/-- Form values of the shelter schema (type ShelterSchema in the source). -/
structure ShelterSchema where
  name : String
  email : String
  phone : String
  whatsApp : String
deriving DecidableEq, Repr

/-- Request body sent by updateShelter (IUpdateShelterRequest). -/
structure UpdateShelterRequest where
  name : String
  email : String
  phone : String
  whatsApp : String
deriving DecidableEq, Repr

/-- Response wrapper of the HTTP client: httpClient.put resolves to a
response object whose data field holds the parsed body. -/
structure AxiosResponse (ρ : Type) where
  data : ρ
deriving DecidableEq, Repr

/-- Record returned by the useShelter data hook; the field names are the
ones read by the Shelter component when populating the form. -/
structure ShelterData where
  shelterName : String
  shelterEmail : String
  shelterPhone : String
  shelterWhatsApp : String
deriving DecidableEq, Repr

/-- Observable side effects of the update service and the submit
handler, in the order they are performed. -/
inductive Effect (ε : Type)
  | putRequest (path : String) (body : UpdateShelterRequest)
  | consoleError (msg : String) (e : ε)
  | toastLoading (msg : String)
  | toastSuccess (msg : String)
  | toastError (msg : String)
  | invalidateQueries (queryKey : List String)
  | resetForm (values : ShelterSchema)

/-- True exactly on PUT request effects. -/
def isPutRequest {ε : Type} : Effect ε → Bool
  | .putRequest _ _ => true
  | _ => false

/-- True exactly on success-toast effects. -/
def isToastSuccess {ε : Type} : Effect ε → Bool
  | .toastSuccess _ => true
  | _ => false

/-- True exactly on error-toast effects. -/
def isToastError {ε : Type} : Effect ε → Bool
  | .toastError _ => true
  | _ => false

/-- True exactly on invalidations of the get-shelter query key. -/
def isInvalidateGetShelter {ε : Type} : Effect ε → Bool
  | .invalidateQueries k => k == ["get-shelter"]
  | _ => false

/-- True exactly on form-reset effects. -/
def isResetForm {ε : Type} : Effect ε → Bool
  | .resetForm _ => true
  | _ => false

/-- Embeds updateShelter of services/shelter/updateShelter.ts: performs
httpClient.put of params to the path /shelter; on success returns
response.data; on failure logs to the console and rethrows the caught
error unchanged. The transport argument stands for the HTTP client; the
trace records the effects in order. -/
def updateShelter {ε ρ : Type}
    (transport : String → UpdateShelterRequest → Except ε (AxiosResponse ρ))
    (params : UpdateShelterRequest) : Except ε ρ × List (Effect ε) :=
  match transport "/shelter" params with
  | .ok response => (.ok response.data, [.putRequest "/shelter" params])
  | .error error =>
      (.error error,
       [.putRequest "/shelter" params,
        .consoleError "Erro ao atualizar abrigo:" error])

/-- Body built by the submit handler from the form values: name and
email are passed through, phone and whatsApp have non-digits stripped
by replace(/\D/g, ""). -/
def requestOf (s : ShelterSchema) : UpdateShelterRequest :=
  { name := s.name
    email := s.email
    phone := stripNonDigits s.phone
    whatsApp := stripNonDigits s.whatsApp }

/-- Embeds the submit function of the Shelter component: shows a
loading toast, calls updateShelter with the normalized body; on success
invalidates the get-shelter query and shows a success toast (updating
the loading toast by its id); on failure shows an error toast. No
branch resets the form. -/
def submit {ε ρ : Type}
    (transport : String → UpdateShelterRequest → Except ε (AxiosResponse ρ))
    (s : ShelterSchema) : List (Effect ε) :=
  let result := updateShelter transport (requestOf s)
  match result.1 with
  | .ok _ =>
      Effect.toastLoading "Salvando dados" :: result.2 ++
        [.invalidateQueries ["get-shelter"],
         .toastSuccess "Dados salvos com sucesso"]
  | .error _ =>
      Effect.toastLoading "Salvando dados" :: result.2 ++
        [.toastError "Não foi possível salvar os dados"]

/-- Embeds the refinement of the phone field of shelterSchema: the
length of value.replace(/\D/g, "") must lie between 10 and 11. -/
def phoneRefine (value : String) : Bool :=
  let digits := (stripNonDigits value).length
  decide (10 ≤ digits ∧ digits ≤ 11)

/-- Embeds the refinement of the whatsApp field of shelterSchema, which
is textually identical to the phone refinement. -/
def whatsAppRefine (value : String) : Bool :=
  let digits := (stripNonDigits value).length
  decide (10 ≤ digits ∧ digits ≤ 11)

/-- Validation outcome of the name rules of shelterSchema: a minimum
length of 2 then a maximum length of 30, each with its message. -/
def nameError (s : String) : Option String :=
  if s.length < 2 then some "Nome deve ter no minínimo 2 caracteres"
  else if 30 < s.length then some "Nome deve ter no máximo 30 caracteres"
  else none

/-- Validation outcome of the email rule of shelterSchema. The zod
email predicate is library code outside this repository, so it is a
parameter here; only its failure message is fixed by the schema. -/
def emailError (emailCheck : String → Bool) (s : String) : Option String :=
  if emailCheck s then none else some "Campo deve ser um email"

/-- Validation outcome of the phone rule of shelterSchema. -/
def phoneError (s : String) : Option String :=
  if phoneRefine s then none
  else some "Número deve ter entre 10 e 11 caracteres"

/-- Validation outcome of the whatsApp rule of shelterSchema. -/
def whatsAppError (s : String) : Option String :=
  if whatsAppRefine s then none
  else some "Número deve ter entre 10 e 11 caracteres"

/-- Field errors of the form state, as rendered under each input. -/
structure FieldErrors where
  name : Option String
  email : Option String
  phone : Option String
  whatsApp : Option String
deriving DecidableEq, Repr

/-- Result of running the zod resolver of shelterSchema over the form
values: each field is checked by its own rule. -/
def validateShelter (emailCheck : String → Bool) (s : ShelterSchema) :
    FieldErrors :=
  { name := nameError s.name
    email := emailError emailCheck s.email
    phone := phoneError s.phone
    whatsApp := whatsAppError s.whatsApp }

/-- True when some field failed validation. -/
def hasErrors (e : FieldErrors) : Bool :=
  e.name.isSome || e.email.isSome || e.phone.isSome || e.whatsApp.isSome

/-- Embeds handleSubmit(submit) wired on the form element: the resolver
runs the schema over the form values; when any rule fails the submit
function is not invoked and no effect is performed, otherwise submit
runs. -/
def onSubmit {ε ρ : Type} (emailCheck : String → Bool)
    (transport : String → UpdateShelterRequest → Except ε (AxiosResponse ρ))
    (s : ShelterSchema) : List (Effect ε) :=
  if hasErrors (validateShelter emailCheck s) then []
  else submit transport s

/-- Form values produced when the Shelter component resets the form
from a fetched record inside its useEffect. -/
def formValuesOf (d : ShelterData) : ShelterSchema :=
  { name := d.shelterName
    email := d.shelterEmail
    phone := d.shelterPhone
    whatsApp := d.shelterWhatsApp }

/-- Embeds the useEffect of the Shelter component: only when loading
has finished and data is present is the form reset to the mapped record
values; otherwise the current form values stay. -/
def populateForm (isLoading : Bool) (data : Option ShelterData)
    (current : ShelterSchema) : ShelterSchema :=
  if !isLoading then
    match data with
    | some d => formValuesOf d
    | none => current
  else current

/-- Variants of the shared Button component used by the form. -/
inductive ButtonVariant
  | Default
  | Disabled
deriving DecidableEq, Repr

/-- Embeds the variant expression of the submit Button in the Shelter
component: Disabled when the form is not dirty or a submit is in
flight, Default otherwise. -/
def submitButtonVariant (isDirty isSubmitting : Bool) : ButtonVariant :=
  if !isDirty || isSubmitting then .Disabled else .Default

/-- Modelled from the spec: the Button component itself is not among
the sources, only its call site is; per the specification the Disabled
variant renders the submit control disabled, so that it cannot trigger
a submission. -/
def buttonDisabled : ButtonVariant → Bool
  | .Disabled => true
  | .Default => false

/-- Entry of the options list accepted by the Select component. -/
structure SelectOption where
  value : String
  text : String
deriving DecidableEq, Repr

/-- Option element as rendered inside the select element. -/
structure RenderedOption where
  key : String
  value : String
  text : String
deriving DecidableEq, Repr

/-- Embeds the body of FowardedSelect in Select.tsx: the options list
is mapped to option elements whose key and value are the entry value
and whose child text is the entry text. -/
def renderSelectOptions (options : List SelectOption) :
    List RenderedOption :=
  options.map (fun option =>
    { key := option.value, value := option.value, text := option.text })

/-- Rendered output of the Select component: a label element followed
by a select element holding the rendered options. -/
structure RenderedSelect where
  label : String
  options : List RenderedOption
deriving DecidableEq, Repr

/-- Embeds FowardedSelect as a whole: the label is rendered verbatim
and the options are rendered by renderSelectOptions. -/
def renderSelect (label : String) (options : List SelectOption) :
    RenderedSelect :=
  { label := label, options := renderSelectOptions options }

/-- Bodies of the PUT requests occurring in an effect trace, in
order. -/
def putBodies {ε : Type} (trace : List (Effect ε)) :
    List UpdateShelterRequest :=
  trace.filterMap (fun eff =>
    match eff with
    | .putRequest _ body => some body
    | _ => none)

/-- C1: for every loaded shelter record, submitting the form with the
fields unchanged (bypassing the no-changes guard) issues exactly one
PUT whose body is the loaded record with phone and whatsApp stripped of
non-digit characters and name and email passed through unchanged. -/
theorem submit_unchanged_roundtrip {ε ρ : Type}
    (transport : String → UpdateShelterRequest → Except ε (AxiosResponse ρ))
    (d : ShelterData) :
    putBodies (submit transport (formValuesOf d)) =
      [{ name := d.shelterName
         email := d.shelterEmail
         phone := stripNonDigits d.shelterPhone
         whatsApp := stripNonDigits d.shelterWhatsApp }] := by
  unfold submit updateShelter
  cases h : transport "/shelter" (requestOf (formValuesOf d)) <;>
    simp [putBodies, requestOf, formValuesOf]

/-- C2: validity of the phone and whatsApp fields is determined solely
by the count of digit characters after stripping non-digits; the field
passes exactly when that count lies between 10 and 11, and two strings
with equal digit counts validate identically. -/
theorem phone_validity_digit_count (s t : String) :
    (phoneError s = none ↔ 10 ≤ digitCount s ∧ digitCount s ≤ 11) ∧
    (whatsAppError s = none ↔ 10 ≤ digitCount s ∧ digitCount s ≤ 11) ∧
    (digitCount s = digitCount t →
      phoneError s = phoneError t ∧ whatsAppError s = whatsAppError t) := by
  unfold phoneError whatsAppError phoneRefine whatsAppRefine digitCount
  refine ⟨?_, ?_, ?_⟩
  · split <;> simp_all
  · split <;> simp_all
  · intro h
    rw [h]
    exact ⟨rfl, rfl⟩

/-- Witness for C2 at the examples of the specification: a masked
number with 10 digits validates like its unmasked form, and both are
valid, while a 9-digit string is invalid. -/
theorem phone_validity_digit_count_witness :
    phoneError "99 9999-9999" = phoneError "9999999999" ∧
    phoneError "99 9999-9999" = none ∧
    phoneError "99 999-999" ≠ none :=
  ⟨((phone_validity_digit_count "99 9999-9999" "9999999999").2.2
      (by decide)).1,
   (phone_validity_digit_count "99 9999-9999" "9999999999").1.mpr
      (by decide),
   fun h =>
     absurd ((phone_validity_digit_count "99 999-999" "9999999999").1.mp h).1
       (by decide)⟩

/-- C3: updateShelter sends its parameter as the body of exactly one
PUT to the path /shelter, returns the data field of the response on
success and otherwise logs a console error and re-raises the identical
error value; the single PUT in the trace means there is no retry. -/
theorem updateShelter_put_contract {ε ρ : Type}
    (transport : String → UpdateShelterRequest → Except ε (AxiosResponse ρ))
    (params : UpdateShelterRequest) :
    (updateShelter transport params).1 =
      Except.map AxiosResponse.data (transport "/shelter" params) ∧
    ((updateShelter transport params).2).countP isPutRequest = 1 ∧
    Effect.putRequest "/shelter" params ∈
      (updateShelter transport params).2 ∧
    (∀ e : ε, transport "/shelter" params = .error e →
      (updateShelter transport params).1 = .error e ∧
      Effect.consoleError "Erro ao atualizar abrigo:" e ∈
        (updateShelter transport params).2) := by
  unfold updateShelter
  cases h : transport "/shelter" params <;>
    simp [Except.map, isPutRequest, List.countP_cons, List.countP_nil, h]

/-- Witness for C3 on a transport that fails with a concrete error: the
error value comes back unchanged and the console error is traced. -/
theorem updateShelter_put_contract_witness :
    (updateShelter (ε := Unit) (ρ := Nat) (fun _ _ => Except.error ())
        { name := "a", email := "a@b.co", phone := "1", whatsApp := "1" }).1
      = Except.error () ∧
    Effect.consoleError "Erro ao atualizar abrigo:" () ∈
      (updateShelter (ε := Unit) (ρ := Nat) (fun _ _ => Except.error ())
        { name := "a", email := "a@b.co", phone := "1", whatsApp := "1" }).2 :=
  (updateShelter_put_contract (ε := Unit) (ρ := Nat)
      (fun _ _ => Except.error ())
      { name := "a", email := "a@b.co", phone := "1", whatsApp := "1" }).2.2.2
    () rfl

/-- C4: whenever the update request succeeds, the submit handler
invalidates the cached query keyed get-shelter exactly once and shows
the success toast exactly once. -/
theorem submit_success_invalidates_and_toasts {ε ρ : Type}
    (transport : String → UpdateShelterRequest → Except ε (AxiosResponse ρ))
    (s : ShelterSchema) (r : AxiosResponse ρ)
    (h : transport "/shelter" (requestOf s) = .ok r) :
    (submit transport s).countP isInvalidateGetShelter = 1 ∧
    (submit transport s).countP isToastSuccess = 1 := by
  unfold submit updateShelter
  simp [h, List.countP_cons, List.countP_nil, isInvalidateGetShelter,
    isToastSuccess, isPutRequest]

/-- Witness for C4: a transport that always succeeds yields one
invalidation of get-shelter and one success toast. -/
theorem submit_success_invalidates_and_toasts_witness :
    (submit (ε := Unit) (ρ := Unit) (fun _ _ => Except.ok ⟨()⟩)
      { name := "ab", email := "a@b.co", phone := "11 99999-9999",
        whatsApp := "11 99999-9999" }).countP isInvalidateGetShelter = 1 ∧
    (submit (ε := Unit) (ρ := Unit) (fun _ _ => Except.ok ⟨()⟩)
      { name := "ab", email := "a@b.co", phone := "11 99999-9999",
        whatsApp := "11 99999-9999" }).countP isToastSuccess = 1 :=
  submit_success_invalidates_and_toasts (fun _ _ => Except.ok ⟨()⟩)
    { name := "ab", email := "a@b.co", phone := "11 99999-9999",
      whatsApp := "11 99999-9999" } ⟨()⟩ rfl

/-- C5: whenever the update request fails, the submit handler shows the
error toast exactly once, never resets the form, and never invalidates
the cached query, so the write is atomic from the client's view. -/
theorem submit_failure_atomic {ε ρ : Type}
    (transport : String → UpdateShelterRequest → Except ε (AxiosResponse ρ))
    (s : ShelterSchema) (e : ε)
    (h : transport "/shelter" (requestOf s) = .error e) :
    (submit transport s).countP isToastError = 1 ∧
    (submit transport s).countP isResetForm = 0 ∧
    (submit transport s).countP isInvalidateGetShelter = 0 := by
  unfold submit updateShelter
  simp [h, List.countP_cons, List.countP_nil, isToastError, isResetForm,
    isInvalidateGetShelter, isPutRequest]

/-- Witness for C5: a transport that always fails yields one error
toast, no form reset and no cache invalidation. -/
theorem submit_failure_atomic_witness :
    (submit (ε := Unit) (ρ := Unit) (fun _ _ => Except.error ())
      { name := "ab", email := "a@b.co", phone := "11 99999-9999",
        whatsApp := "11 99999-9999" }).countP isToastError = 1 ∧
    (submit (ε := Unit) (ρ := Unit) (fun _ _ => Except.error ())
      { name := "ab", email := "a@b.co", phone := "11 99999-9999",
        whatsApp := "11 99999-9999" }).countP isResetForm = 0 ∧
    (submit (ε := Unit) (ρ := Unit) (fun _ _ => Except.error ())
      { name := "ab", email := "a@b.co", phone := "11 99999-9999",
        whatsApp := "11 99999-9999" }).countP isInvalidateGetShelter = 0 :=
  submit_failure_atomic (fun _ _ => Except.error ())
    { name := "ab", email := "a@b.co", phone := "11 99999-9999",
      whatsApp := "11 99999-9999" } () rfl

/-- C6: in every state where the form is not dirty the submit control
renders in the Disabled variant and is therefore disabled, regardless
of whether a submission is in flight. -/
theorem notDirty_button_disabled (isDirty isSubmitting : Bool)
    (h : isDirty = false) :
    buttonDisabled (submitButtonVariant isDirty isSubmitting) = true := by
  subst h
  cases isSubmitting <;> rfl

/-- Witness for C6 at the idle non-dirty state. -/
theorem notDirty_button_disabled_witness :
    buttonDisabled (submitButtonVariant false false) = true :=
  notDirty_button_disabled false false rfl

/-- C7: a name of length below 2 or above 30 blocks submission, leaving
an empty effect trace (so the update operation is not invoked) and a
name field error message; every name of length 2 through 30 passes the
name rule. -/
theorem name_length_rule {ε ρ : Type} (emailCheck : String → Bool)
    (transport : String → UpdateShelterRequest → Except ε (AxiosResponse ρ))
    (s : ShelterSchema) :
    ((s.name.length < 2 ∨ 30 < s.name.length) →
      onSubmit emailCheck transport s = [] ∧
      (validateShelter emailCheck s).name.isSome = true) ∧
    (2 ≤ s.name.length ∧ s.name.length ≤ 30 →
      (validateShelter emailCheck s).name = none) := by
  constructor
  · intro h
    have hname : (nameError s.name).isSome = true := by
      unfold nameError
      rcases h with h | h
      · simp [h]
      · have hge : ¬ s.name.length < 2 := by omega
        simp [hge, h]
    have herr : hasErrors (validateShelter emailCheck s) = true := by
      unfold hasErrors validateShelter
      simp [hname]
    refine ⟨by simp [onSubmit, herr], ?_⟩
    simpa [validateShelter] using hname
  · intro h
    have h1 : ¬ s.name.length < 2 := by omega
    have h2 : ¬ 30 < s.name.length := by omega
    simp [validateShelter, nameError, h1, h2]

/-- Witness for C7: a one-character name blocks the submission and
leaves a name error; a two-character name passes the name rule. -/
theorem name_length_rule_witness :
    (onSubmit (ε := Unit) (ρ := Unit) (fun _ => true)
      (fun _ _ => Except.ok ⟨()⟩)
      { name := "x", email := "a@b.co", phone := "11 99999-9999",
        whatsApp := "11 99999-9999" } = [] ∧
     (validateShelter (fun _ => true)
      { name := "x", email := "a@b.co", phone := "11 99999-9999",
        whatsApp := "11 99999-9999" }).name.isSome = true) ∧
    (validateShelter (fun _ => true)
      { name := "ab", email := "a@b.co", phone := "11 99999-9999",
        whatsApp := "11 99999-9999" }).name = none :=
  ⟨(name_length_rule (fun _ => true) (fun _ _ => Except.ok ⟨()⟩)
      { name := "x", email := "a@b.co", phone := "11 99999-9999",
        whatsApp := "11 99999-9999" }).1 (Or.inl (by decide)),
   (name_length_rule (ε := Unit) (ρ := Unit) (fun _ => true)
      (fun _ _ => Except.ok ⟨()⟩)
      { name := "ab", email := "a@b.co", phone := "11 99999-9999",
        whatsApp := "11 99999-9999" }).2 (by decide)⟩

/-- C8: whenever any validation rule fails on the form values, the
composed submit handler performs no effect at all, in particular no
network request, and the form state carries a field-level error. -/
theorem validation_blocks_network {ε ρ : Type} (emailCheck : String → Bool)
    (transport : String → UpdateShelterRequest → Except ε (AxiosResponse ρ))
    (s : ShelterSchema)
    (h : nameError s.name ≠ none ∨ emailError emailCheck s.email ≠ none ∨
         phoneError s.phone ≠ none ∨ whatsAppError s.whatsApp ≠ none) :
    onSubmit emailCheck transport s = [] ∧
    hasErrors (validateShelter emailCheck s) = true := by
  have herr : hasErrors (validateShelter emailCheck s) = true := by
    unfold hasErrors validateShelter
    rcases h with h | h | h | h <;>
      simp [Option.isSome_iff_ne_none, h]
  exact ⟨by simp [onSubmit, herr], herr⟩

/-- Witness for C8: a nine-digit phone number blocks the submission
with no effects and an error in the form state. -/
theorem validation_blocks_network_witness :
    onSubmit (ε := Unit) (ρ := Unit) (fun _ => true)
      (fun _ _ => Except.ok ⟨()⟩)
      { name := "ab", email := "a@b.co", phone := "11 9999-999",
        whatsApp := "11 99999-9999" } = [] ∧
    hasErrors (validateShelter (fun _ => true)
      { name := "ab", email := "a@b.co", phone := "11 9999-999",
        whatsApp := "11 99999-9999" }) = true :=
  validation_blocks_network (fun _ => true) (fun _ _ => Except.ok ⟨()⟩)
    { name := "ab", email := "a@b.co", phone := "11 9999-999",
      whatsApp := "11 99999-9999" }
    (Or.inr (Or.inr (Or.inl (by decide))))

/-- C9: the Select component renders its label verbatim and exactly one
option per entry of the options list, in order, with the entry value as
the option value and the entry text as the option text. -/
theorem select_renders_options (label : String)
    (options : List SelectOption) (i : Nat) :
    (renderSelect label options).label = label ∧
    (renderSelect label options).options.length = options.length ∧
    ((renderSelect label options).options[i]?).map RenderedOption.value
      = (options[i]?).map SelectOption.value ∧
    ((renderSelect label options).options[i]?).map RenderedOption.text
      = (options[i]?).map SelectOption.text := by
  unfold renderSelect renderSelectOptions
  refine ⟨rfl, by simp, ?_, ?_⟩ <;>
    · cases h : options[i]? <;> simp [List.getElem?_map, h]

/-- C10: the form is populated from the fetched record exactly when
loading has finished and data is present, with shelterName mapped to
name, shelterEmail to email, shelterPhone to phone and shelterWhatsApp
to whatsApp; with no data, or while loading, the current values stay. -/
theorem populate_mapping (d : ShelterData) (dat : Option ShelterData)
    (current : ShelterSchema) :
    populateForm false (some d) current =
      { name := d.shelterName, email := d.shelterEmail,
        phone := d.shelterPhone, whatsApp := d.shelterWhatsApp } ∧
    populateForm false none current = current ∧
    populateForm true dat current = current :=
  ⟨rfl, rfl, rfl⟩
